import Mathlib

/-!
Shallow embedding of the book-management system
(`book_management/models/book.py`, `book_management/repositories/book_repository.py`,
`book_management/services/book_service.py`).

Modelling conventions:
* Python `int` fields become `Int`; timestamps and calendar dates are opaque
  `Nat` values (the code only ever stores `datetime.now()` and formats it, so a
  single "current time" parameter `now : Nat` is threaded into every operation
  that calls `datetime.now()`).
* `price` carries no arithmetic in the source, so it is modelled as `Int`.
* Python mutation of the live `Book` object found by `find_by_id` becomes an
  explicit write-back of the mutated record over the first list element whose
  `book_id` matches (`setFirstById`), which is exactly the element Python's
  linear scan returned.
* Fallible operations return `Bool × _`, `Option _ × _` or `Except String _`
  following the source's return conventions; the `ValueError` raised by
  `add_book` becomes the `Except.error` case carrying the source's message.
* Python `str.lower` is modelled by `Char.toLower` (the repository's data is
  ASCII; both agree there), and the `in` substring test by `loccurs`.
-/

/-- The `Book` entity of `book_management/models/book.py`.  Field names follow
the source.  `create_time` and `update_time` are the two timestamps set by the
constructor and refreshed by `update_quantity`. -/
structure Book where
  book_id : Int
  isbn : String
  title : String
  author : String
  publisher : String
  publish_date : Nat
  category_id : Int
  price : Int
  total_quantity : Int
  available_quantity : Int
  create_time : Nat
  update_time : Nat
deriving Repr, DecidableEq

/-- Embeds `Book.__init__`: every descriptive field is stored as passed,
`available_quantity` starts at `total_quantity`, and both timestamps are set to
the current time `now`. -/
def Book.make (book_id : Int) (isbn title author publisher : String)
    (publish_date : Nat) (category_id : Int) (price : Int)
    (total_quantity : Int) (now : Nat) : Book :=
  { book_id := book_id
    isbn := isbn
    title := title
    author := author
    publisher := publisher
    publish_date := publish_date
    category_id := category_id
    price := price
    total_quantity := total_quantity
    available_quantity := total_quantity
    create_time := now
    update_time := now }

/-- Embeds `Book.get_status`: "可借" (available) when `available_quantity > 0`,
otherwise "已借出" (on loan). -/
def Book.get_status (b : Book) : String :=
  if b.available_quantity > 0 then "可借" else "已借出"

/-- Embeds `Book.update_quantity(change)`: computes `new_quantity`, and commits it
(refreshing `update_time`) exactly when `0 ≤ new_quantity ≤ total_quantity`;
returns the success flag together with the (possibly unchanged) record. -/
def Book.update_quantity (b : Book) (change : Int) (now : Nat) : Bool × Book :=
  let new_quantity := b.available_quantity + change
  if new_quantity ≥ 0 ∧ new_quantity ≤ b.total_quantity then
    (true, { b with available_quantity := new_quantity, update_time := now })
  else
    (false, b)

/-- The in-memory store of `book_management/repositories/book_repository.py`:
the `_books` list in insertion order and the `_next_id` auto-increment counter
(initially 1). -/
structure BookRepository where
  books : List Book
  next_id : Int
deriving Repr, DecidableEq

/-- Embeds `BookRepository.__init__`: empty list, counter at 1. -/
def initRepo : BookRepository := { books := [], next_id := 1 }

/-- Linear scan of `BookRepository.find_by_id`: first book whose `book_id`
equals the argument, or `none`. -/
def findByIdList : List Book → Int → Option Book
  | [], _ => none
  | b :: rest, book_id =>
    if b.book_id == book_id then some b else findByIdList rest book_id

/-- Embeds `BookRepository.find_by_id`. -/
def BookRepository.find_by_id (repo : BookRepository) (book_id : Int) : Option Book :=
  findByIdList repo.books book_id

/-- Linear scan of `BookRepository.find_by_isbn`. -/
def findByIsbnList : List Book → String → Option Book
  | [], _ => none
  | b :: rest, isbn =>
    if b.isbn == isbn then some b else findByIsbnList rest isbn

/-- Embeds `BookRepository.find_by_isbn`. -/
def BookRepository.find_by_isbn (repo : BookRepository) (isbn : String) : Option Book :=
  findByIsbnList repo.books isbn

/-- Overwrite the first list element whose `book_id` matches with `nb`;
identity when no element matches.  This is the write-back of a Python in-place
mutation of the object returned by `find_by_id`, and also the update branch of
`BookRepository.save` / `BookRepository.update`. -/
def setFirstById : List Book → Int → Book → List Book
  | [], _, _ => []
  | b :: rest, book_id, nb =>
    if b.book_id == book_id then nb :: rest
    else b :: setFirstById rest book_id nb

/-- Embeds `BookRepository.save`: a book with `book_id == 0` (the source also accepts
`None`; the model uses `0` for "unset") gets the next sequential identifier and
is appended; otherwise the existing entry with the same identifier is replaced
in place (no-op when absent).  Returns the saved book and the new store. -/
def BookRepository.save (repo : BookRepository) (book : Book) : Book × BookRepository :=
  if book.book_id == 0 then
    let book' := { book with book_id := repo.next_id }
    (book', { books := repo.books ++ [book'], next_id := repo.next_id + 1 })
  else
    (book, { repo with books := setFirstById repo.books book.book_id book })

/-- Remove the first element whose `book_id` matches;
mirrors the loop of `BookRepository.delete`. -/
def deleteById : List Book → Int → Bool × List Book
  | [], _ => (false, [])
  | b :: rest, book_id =>
    if b.book_id == book_id then (true, rest)
    else
      let r := deleteById rest book_id
      (r.1, b :: r.2)

/-- Embeds `BookRepository.delete`. -/
def BookRepository.delete (repo : BookRepository) (book_id : Int) : Bool × BookRepository :=
  let r := deleteById repo.books book_id
  (r.1, { repo with books := r.2 })

/-- Python truthiness of an optional string argument: `None` and `""` are
falsy, every other string is truthy. -/
def pyTruthyStr : Option String → Bool
  | none => false
  | some s => !(s == "")

/-- Python truthiness of an optional integer argument: `None` and `0` are
falsy. -/
def pyTruthyInt : Option Int → Bool
  | none => false
  | some i => !(i == 0)

/-- Whether `needle` is a leading segment of `hay` (character lists). -/
def lstart : List Char → List Char → Bool
  | [], _ => true
  | _ :: _, [] => false
  | a :: as, b :: bs => a == b && lstart as bs

/-- Whether `needle` occurs contiguously inside `hay` — Python's `in` test on
strings (as character lists). -/
def loccurs : List Char → List Char → Bool
  | needle, [] => lstart needle []
  | needle, c :: cs => lstart needle (c :: cs) || loccurs needle cs

/-- Computes `s.lower()` as a character list (ASCII-faithful). -/
def lowerChars (s : String) : List Char :=
  s.data.map Char.toLower

/-- Decides `needle.lower() in hay.lower()` — the case-insensitive substring test used
by `find_by_params`. -/
def strOccursCI (needle hay : String) : Bool :=
  loccurs (lowerChars needle) (lowerChars hay)

/-- The `match` flag computed for one book by the loop body of
`BookRepository.find_by_params`: each truthy filter that the book fails turns
the flag off. -/
def paramsMatch (title author : Option String) (category_id : Option Int)
    (book : Book) : Bool :=
  !(pyTruthyStr title && !strOccursCI (title.getD "") book.title) &&
  !(pyTruthyStr author && !strOccursCI (author.getD "") book.author) &&
  !(pyTruthyInt category_id && !(book.category_id == category_id.getD 0))

/-- The result-accumulating loop of `BookRepository.find_by_params`: books are
appended in iteration (= insertion) order whenever their `match` flag survived
all three filters. -/
def findByParamsList (books : List Book) (title author : Option String)
    (category_id : Option Int) : List Book :=
  match books with
  | [] => []
  | b :: rest =>
    if paramsMatch title author category_id b then
      b :: findByParamsList rest title author category_id
    else
      findByParamsList rest title author category_id

/-- Embeds `BookRepository.find_by_params`. -/
def BookRepository.find_by_params (repo : BookRepository)
    (title author : Option String) (category_id : Option Int) : List Book :=
  findByParamsList repo.books title author category_id

/-- One keyword argument of `BookService.update_book`: either a recognized
`Book` attribute paired with its new value, or an unrecognized name (for which
`hasattr` is false and the pair is skipped). -/
inductive FieldAssign where
  | book_id (v : Int)
  | isbn (v : String)
  | title (v : String)
  | author (v : String)
  | publisher (v : String)
  | publish_date (v : Nat)
  | category_id (v : Int)
  | price (v : Int)
  | total_quantity (v : Int)
  | available_quantity (v : Int)
  | create_time (v : Nat)
  | update_time (v : Nat)
  | unknown (name : String)
deriving Repr, DecidableEq

/-- Embeds `setattr(book, key, value)` guarded by `hasattr(book, key)`: a recognized
attribute is overwritten, an unrecognized one is silently ignored. -/
def setField (b : Book) : FieldAssign → Book
  | .book_id v => { b with book_id := v }
  | .isbn v => { b with isbn := v }
  | .title v => { b with title := v }
  | .author v => { b with author := v }
  | .publisher v => { b with publisher := v }
  | .publish_date v => { b with publish_date := v }
  | .category_id v => { b with category_id := v }
  | .price v => { b with price := v }
  | .total_quantity v => { b with total_quantity := v }
  | .available_quantity v => { b with available_quantity := v }
  | .create_time v => { b with create_time := v }
  | .update_time v => { b with update_time := v }
  | .unknown _ => b

/-- Embeds `BookService.add_book`: fails with the source's `ValueError` message when
the ISBN is already stored, otherwise constructs a `Book` with `book_id = 0`
(unset) and saves it, returning the persisted entity and the new store. -/
def add_book (repo : BookRepository) (isbn title author publisher : String)
    (publish_date : Nat) (category_id : Int) (price : Int)
    (total_quantity : Int) (now : Nat) :
    Except String (Book × BookRepository) :=
  match repo.find_by_isbn isbn with
  | some _ => .error ("ISBN " ++ isbn ++ " 已存在")
  | none =>
    let book := Book.make 0 isbn title author publisher publish_date
      category_id price total_quantity now
    .ok (repo.save book)

/-- Embeds `BookService.search_books` — passthrough to `find_by_params`. -/
def search_books (repo : BookRepository) (title author : Option String)
    (category_id : Option Int) : List Book :=
  repo.find_by_params title author category_id

/-- Embeds `BookService.update_book`: not-found yields `none` and leaves the store
alone; otherwise every supplied pair with a recognized attribute name is
applied in order onto the live entity (write-back over the found element) and
the mutated entity is returned. -/
def update_book (repo : BookRepository) (book_id : Int)
    (kwargs : List FieldAssign) : Option Book × BookRepository :=
  match repo.find_by_id book_id with
  | none => (none, repo)
  | some book =>
    let book' := kwargs.foldl setField book
    (some book', { repo with books := setFirstById repo.books book_id book' })

/-- Embeds `BookService.delete_book` — passthrough to the store's delete. -/
def delete_book (repo : BookRepository) (book_id : Int) : Bool × BookRepository :=
  repo.delete book_id

/-- Embeds `BookService.borrow_book`: false when the book is not found or
`available_quantity ≤ 0`; otherwise delegates to `update_quantity (-1)` on the
live entity and returns its result, writing the entity back. -/
def borrow_book (repo : BookRepository) (book_id : Int) (now : Nat) :
    Bool × BookRepository :=
  match repo.find_by_id book_id with
  | none => (false, repo)
  | some book =>
    if book.available_quantity ≤ 0 then (false, repo)
    else
      let r := book.update_quantity (-1) now
      (r.1, { repo with books := setFirstById repo.books book_id r.2 })

/-- Embeds `BookService.return_book`: false when the book is not found or
`available_quantity ≥ total_quantity`; otherwise delegates to
`update_quantity 1` on the live entity and returns its result. -/
def return_book (repo : BookRepository) (book_id : Int) (now : Nat) :
    Bool × BookRepository :=
  match repo.find_by_id book_id with
  | none => (false, repo)
  | some book =>
    if book.available_quantity ≥ book.total_quantity then (false, repo)
    else
      let r := book.update_quantity 1 now
      (r.1, { repo with books := setFirstById repo.books book_id r.2 })

/-- One mutating call of the caller-facing `BookService` API (time-dependent
operations carry their `datetime.now()` value). -/
inductive Op where
  | add (isbn title author publisher : String) (publish_date : Nat)
      (category_id : Int) (price : Int) (total_quantity : Int) (now : Nat)
  | update (book_id : Int) (kwargs : List FieldAssign)
  | delete (book_id : Int)
  | borrow (book_id : Int) (now : Nat)
  | ret (book_id : Int) (now : Nat)
deriving Repr

/-- Apply one service-API call to the store, discarding its result value. -/
def applyOp (repo : BookRepository) : Op → BookRepository
  | .add isbn title author publisher publish_date category_id price tq now =>
    match add_book repo isbn title author publisher publish_date category_id
        price tq now with
    | .ok r => r.2
    | .error _ => repo
  | .update book_id kwargs => (update_book repo book_id kwargs).2
  | .delete book_id => (delete_book repo book_id).2
  | .borrow book_id now => (borrow_book repo book_id now).2
  | .ret book_id now => (return_book repo book_id now).2

/-- Run a sequence of service-API calls from a given store state. -/
def runOps (repo : BookRepository) (ops : List Op) : BookRepository :=
  ops.foldl applyOp repo

/-- The identifiers the store's `save` assigns while executing one
service-API call in state `repo`: only a successful `add_book` reaches the
assigning branch of `save`, and it hands out the current `_next_id`. -/
def assignsId (repo : BookRepository) : Op → List Int
  | .add isbn _ _ _ _ _ _ _ _ =>
    match repo.find_by_isbn isbn with
    | some _ => []
    | none => [repo.next_id]
  | _ => []

/-- All identifiers assigned by `save`, in order, over a whole sequence of
service-API calls. -/
def traceAssigned (repo : BookRepository) : List Op → List Int
  | [] => []
  | op :: ops => assignsId repo op ++ traceAssigned (applyOp repo op) ops

/-- The list `a, a+1, ..., a+n-1`. -/
def rangeFrom (a : Int) : Nat → List Int
  | 0 => []
  | n + 1 => a :: rangeFrom (a + 1) n

/-- Spec-side reading (section 4.2 of the spec) of one string filter of
`FindByParams`: an omitted filter and an empty-string filter impose no
constraint; otherwise the filter is a case-insensitive substring match
against the field. -/
def specStrFilter : Option String → String → Bool
  | none, _ => true
  | some s, field => if s = "" then true else strOccursCI s field

/-- Spec-side reading of the `category_id` filter of `FindByParams`: omitted
and `0` impose no constraint; otherwise exact equality. -/
def specCidFilter : Option Int → Int → Bool
  | none, _ => true
  | some c, x => if c = 0 then true else x == c

/-- Spec-side membership condition of `FindByParams`: a book is returned
exactly when it satisfies every supplied filter. -/
def specParamsFilter (title author : Option String) (category_id : Option Int)
    (b : Book) : Bool :=
  specStrFilter title b.title && specStrFilter author b.author &&
    specCidFilter category_id b.category_id

/-- A store reached through the service API whose single book violates the
quantity invariant upward: `AddBook` with `total_quantity = 0`, then
`UpdateBook` setting `available_quantity := 2`. -/
def cexRepoC2 : BookRepository :=
  runOps initRepo
    [Op.add "i" "t" "a" "p" 0 1 10 0 0,
     Op.update 1 [FieldAssign.available_quantity 2]]

/-- A store reached through the service API whose single book violates the
quantity invariant downward: `AddBook` with `total_quantity = 0`, then
`UpdateBook` setting `available_quantity := -2`. -/
def cexRepoC3 : BookRepository :=
  runOps initRepo
    [Op.add "i" "t" "a" "p" 0 1 10 0 0,
     Op.update 1 [FieldAssign.available_quantity (-2)]]

/-- A store reached through the service API whose single book satisfies the
quantity invariant with `available_quantity = 0 < 1 = total_quantity`:
`AddBook` with one copy, then one successful `BorrowBook`. -/
def cexRepoC6 : BookRepository :=
  runOps initRepo
    [Op.add "i" "t" "a" "p" 0 1 10 1 0,
     Op.borrow 1 1]

/-- A concrete saved book used to instantiate hypothesis-bearing theorems:
five copies, all available, identifier 1. -/
def demoBook : Book := Book.make 1 "isbn-1" "Python Guide" "Alice" "Pub" 0 1 10 5 0

/-- A concrete one-book store holding `demoBook`. -/
def demoRepo : BookRepository := { books := [demoBook], next_id := 2 }

/-- Variant of `demoBook` with two copies out on loan (3 of 5 available). -/
def demoBook2 : Book := { demoBook with available_quantity := 3 }

/-- A concrete one-book store holding `demoBook2`. -/
def demoRepo2 : BookRepository := { books := [demoBook2], next_id := 2 }

/-! ### Helper lemmas about the store's linear scans -/

/-- A book returned by the `find_by_id` scan carries the identifier that was
searched for. -/
theorem findByIdList_eq_id {books : List Book} {book_id : Int} {b : Book}
    (h : findByIdList books book_id = some b) : b.book_id = book_id := by
  induction books with
  | nil => simp [findByIdList] at h
  | cons a rest ih =>
    rw [findByIdList] at h
    cases hb : (a.book_id == book_id) with
    | true =>
      rw [hb] at h
      simp only [if_true] at h
      cases h
      exact by simpa using hb
    | false =>
      rw [hb] at h
      simp only [Bool.false_eq_true, if_false] at h
      exact ih h

/-- Writing the found book back over itself leaves the collection unchanged. -/
theorem setFirstById_self {books : List Book} {book_id : Int} {b : Book}
    (h : findByIdList books book_id = some b) :
    setFirstById books book_id b = books := by
  induction books with
  | nil => rfl
  | cons a rest ih =>
    rw [findByIdList] at h
    rw [setFirstById]
    cases hb : (a.book_id == book_id) with
    | true =>
      rw [hb] at h
      simp only [if_true] at h
      cases h
      simp [hb]
    | false =>
      rw [hb] at h
      simp only [Bool.false_eq_true, if_false] at h
      simp [hb, ih h]

/-- After writing `nb` (still carrying the searched identifier) over the found
book, the `find_by_id` scan returns `nb`. -/
theorem findByIdList_setFirstById {books : List Book} {book_id : Int} {b nb : Book}
    (h : findByIdList books book_id = some b) (hid : nb.book_id = book_id) :
    findByIdList (setFirstById books book_id nb) book_id = some nb := by
  induction books with
  | nil => simp [findByIdList] at h
  | cons a rest ih =>
    rw [findByIdList] at h
    rw [setFirstById]
    cases hb : (a.book_id == book_id) with
    | true =>
      simp [findByIdList, hid]
    | false =>
      rw [hb] at h
      simp only [Bool.false_eq_true, if_false] at h
      simp [findByIdList, hb, ih h]

/-- Writing over the first book with the searched identifier leaves every
position that holds a book with a different identifier untouched. -/
theorem getq_setFirstById_ne {books : List Book} {book_id : Int} {nb : Book}
    {j : Nat} {bj : Book} (h : books.get? j = some bj)
    (hne : bj.book_id ≠ book_id) :
    (setFirstById books book_id nb).get? j = some bj := by
  induction books generalizing j with
  | nil => simp at h
  | cons a rest ih =>
    rw [setFirstById]
    cases hb : (a.book_id == book_id) with
    | true =>
      cases j with
      | zero =>
        simp only [List.get?] at h
        cases h
        exact absurd (by simpa using hb) hne
      | succ j => simpa using h
    | false =>
      cases j with
      | zero => simpa using h
      | succ j =>
        simp only [List.get?] at h ⊢
        exact ih h

/-- The `find_by_isbn` scan comes back empty exactly when no stored book has
the searched ISBN. -/
theorem findByIsbnList_eq_none_iff {books : List Book} {isbn : String} :
    findByIsbnList books isbn = none ↔ ∀ b ∈ books, b.isbn ≠ isbn := by
  induction books with
  | nil => simp [findByIsbnList]
  | cons a rest ih =>
    rw [findByIsbnList]
    cases hb : (a.isbn == isbn) with
    | true =>
      simp only [if_true]
      constructor
      · intro h; cases h
      · intro h
        exact absurd (by simpa using hb) (h a (by simp))
    | false =>
      simp only [Bool.false_eq_true, if_false]
      rw [ih]
      constructor
      · intro h b hmem
        rcases List.mem_cons.mp hmem with rfl | hmem
        · simpa using hb
        · exact h b hmem
      · intro h b hmem
        exact h b (List.mem_cons_of_mem _ hmem)

/-! ### Claim theorems -/

/-- Claim C1: for every `Book` with `0 ≤ available_quantity ≤ total_quantity`
and every integer `delta`, `update_quantity delta` returns true and sets
`available_quantity := available_quantity + delta` exactly when
`0 ≤ available_quantity + delta ≤ total_quantity`; in every other case it
returns false and leaves the record (including `update_time`) unchanged, so
`available_quantity` never leaves `[0, total_quantity]`. -/
theorem claim_C1_update_quantity (b : Book) (delta : Int) (now : Nat)
    (h0 : 0 ≤ b.available_quantity) (h1 : b.available_quantity ≤ b.total_quantity) :
    (0 ≤ b.available_quantity + delta ∧ b.available_quantity + delta ≤ b.total_quantity →
      b.update_quantity delta now =
        (true, { b with available_quantity := b.available_quantity + delta,
                        update_time := now })) ∧
    (¬(0 ≤ b.available_quantity + delta ∧ b.available_quantity + delta ≤ b.total_quantity) →
      b.update_quantity delta now = (false, b)) ∧
    0 ≤ (b.update_quantity delta now).2.available_quantity ∧
    (b.update_quantity delta now).2.available_quantity ≤ b.total_quantity := by
  unfold Book.update_quantity
  by_cases hc : b.available_quantity + delta ≥ 0 ∧
      b.available_quantity + delta ≤ b.total_quantity
  · refine ⟨fun _ => by rw [if_pos hc], fun hn => absurd ⟨hc.1, hc.2⟩ hn, ?_, ?_⟩
    · rw [if_pos hc]; exact hc.1
    · rw [if_pos hc]; exact hc.2
  · refine ⟨fun h => absurd ⟨h.1, h.2⟩ hc, fun _ => by rw [if_neg hc], ?_, ?_⟩
    · rw [if_neg hc]; exact h0
    · rw [if_neg hc]; exact h1

/-- Witness for C1: `demoBook` has 5 of 5 copies available; borrowing one
(`delta = -1`) succeeds and commits 4 copies with the new timestamp. -/
theorem claim_C1_witness :
    (0 : Int) ≤ demoBook.available_quantity ∧
    demoBook.available_quantity ≤ demoBook.total_quantity ∧
    demoBook.update_quantity (-1) 3 =
      (true, { demoBook with available_quantity := 4, update_time := 3 }) :=
  ⟨by decide, by decide,
    ((claim_C1_update_quantity demoBook (-1) 3 (by decide) (by decide)).1
      (by decide)).trans (by decide)⟩

/-- Counterexample to claim C5 as stated: constructing a book with
`total_quantity = 0` gives `available_quantity = total_quantity` but status
"已借出" (on loan), not "可借" (available). -/
theorem claim_C5_counterexample :
    (Book.make 1 "i" "t" "a" "p" 0 1 10 0 0).available_quantity =
      (Book.make 1 "i" "t" "a" "p" 0 1 10 0 0).total_quantity ∧
    (Book.make 1 "i" "t" "a" "p" 0 1 10 0 0).get_status ≠ "可借" := by
  decide

/-- Claim C5 (amended): immediately after construction
`available_quantity = total_quantity` for every input tuple, and
`GetStatus()` is "可借" (the spec's "available") exactly when
`total_quantity > 0`; with no copies it is "已借出" (on loan). -/
theorem claim_C5_construct (book_id : Int) (isbn title author publisher : String)
    (publish_date : Nat) (category_id : Int) (price : Int)
    (total_quantity : Int) (now : Nat) :
    (Book.make book_id isbn title author publisher publish_date category_id
        price total_quantity now).available_quantity = total_quantity ∧
    (0 < total_quantity →
      (Book.make book_id isbn title author publisher publish_date category_id
          price total_quantity now).get_status = "可借") ∧
    (total_quantity ≤ 0 →
      (Book.make book_id isbn title author publisher publish_date category_id
          price total_quantity now).get_status = "已借出") := by
  refine ⟨rfl, fun h => ?_, fun h => ?_⟩
  · rw [Book.get_status, if_pos]
    exact h
  · rw [Book.get_status, if_neg]
    simpa using h

/-- Witness for C5 (amended): a freshly constructed two-copy book has both
copies available and status "可借". -/
theorem claim_C5_witness :
    (0 : Int) < 2 ∧
    (Book.make 1 "i" "t" "a" "p" 0 1 10 2 0).available_quantity = 2 ∧
    (Book.make 1 "i" "t" "a" "p" 0 1 10 2 0).get_status = "可借" :=
  ⟨by decide,
    (claim_C5_construct 1 "i" "t" "a" "p" 0 1 10 2 0).1,
    (claim_C5_construct 1 "i" "t" "a" "p" 0 1 10 2 0).2.1 (by decide)⟩

/-- Counterexample to claim C2 as stated: in the service-API-reachable store
`cexRepoC2` the book with identifier 1 is found and has
`available_quantity = 2 > 0`, yet `BorrowBook` returns false and changes
nothing (its `total_quantity` is 0, so the delegated `ChangeQuantity(-1)`
refuses), where the claim promises a decrement and true. -/
theorem claim_C2_counterexample :
    (cexRepoC2.find_by_id 1).map Book.available_quantity = some 2 ∧
    (cexRepoC2.find_by_id 1).map Book.total_quantity = some 0 ∧
    borrow_book cexRepoC2 1 5 = (false, cexRepoC2) := by
  decide

/-- Claim C2 (amended): `BorrowBook(id)` returns false and changes no book's
state when no stored book has the identifier, or when the found book has
`available_quantity ≤ 0`, or when `available_quantity - 1 > total_quantity`
(the delegated `ChangeQuantity(-1)` refuses); in the remaining case —
`available_quantity > 0` and `available_quantity - 1 ≤ total_quantity` — it
decrements the found book's `available_quantity` by 1 and returns true. -/
theorem claim_C2_borrow (repo : BookRepository) (book_id : Int) (now : Nat) :
    (repo.find_by_id book_id = none → borrow_book repo book_id now = (false, repo)) ∧
    (∀ b, repo.find_by_id book_id = some b → b.available_quantity ≤ 0 →
      borrow_book repo book_id now = (false, repo)) ∧
    (∀ b, repo.find_by_id book_id = some b → 0 < b.available_quantity →
      b.available_quantity - 1 ≤ b.total_quantity →
      (borrow_book repo book_id now).1 = true ∧
      (borrow_book repo book_id now).2.find_by_id book_id =
        some { b with available_quantity := b.available_quantity - 1,
                      update_time := now }) ∧
    (∀ b, repo.find_by_id book_id = some b → 0 < b.available_quantity →
      b.total_quantity < b.available_quantity - 1 →
      borrow_book repo book_id now = (false, repo)) := by
  refine ⟨fun h => ?_, fun b hfind hle => ?_, fun b hfind h0 hub => ?_,
    fun b hfind h0 hub => ?_⟩
  · simp only [borrow_book, h]
  · simp only [borrow_book, hfind]
    rw [if_pos hle]
  · have hcond : b.available_quantity + (-1) ≥ 0 ∧
        b.available_quantity + (-1) ≤ b.total_quantity := by omega
    have hupd : b.update_quantity (-1) now =
        (true, { b with available_quantity := b.available_quantity + (-1),
                        update_time := now }) := by
      unfold Book.update_quantity
      rw [if_pos hcond]
    simp only [borrow_book, hfind]
    rw [if_neg (not_le.mpr h0), hupd]
    refine ⟨rfl, ?_⟩
    have hid0 : b.book_id = book_id :=
      findByIdList_eq_id (by simpa [BookRepository.find_by_id] using hfind)
    have hid : ({ b with available_quantity := b.available_quantity + (-1),
                         update_time := now } : Book).book_id = book_id := hid0
    have := findByIdList_setFirstById
      (by simpa [BookRepository.find_by_id] using hfind) hid
    simpa [BookRepository.find_by_id, sub_eq_add_neg] using this
  · have hcond : ¬(b.available_quantity + (-1) ≥ 0 ∧
        b.available_quantity + (-1) ≤ b.total_quantity) := by omega
    have hupd : b.update_quantity (-1) now = (false, b) := by
      unfold Book.update_quantity
      rw [if_neg hcond]
    simp only [borrow_book, hfind]
    rw [if_neg (not_le.mpr h0), hupd]
    have hself := setFirstById_self
      (by simpa [BookRepository.find_by_id] using hfind)
    simp [hself]

/-- Witness for C2 (amended): borrowing from `demoRepo` (5 of 5 copies)
succeeds and leaves 4 copies with the new timestamp. -/
theorem claim_C2_witness :
    demoRepo.find_by_id 1 = some demoBook ∧
    (0 : Int) < demoBook.available_quantity ∧
    demoBook.available_quantity - 1 ≤ demoBook.total_quantity ∧
    (borrow_book demoRepo 1 7).1 = true ∧
    (borrow_book demoRepo 1 7).2.find_by_id 1 =
      some { demoBook with available_quantity := 4, update_time := 7 } :=
  ⟨by decide, by decide, by decide,
    ((claim_C2_borrow demoRepo 1 7).2.2.1 demoBook (by decide) (by decide)
      (by decide)).1,
    (((claim_C2_borrow demoRepo 1 7).2.2.1 demoBook (by decide) (by decide)
      (by decide)).2).trans (by decide)⟩

/-- Counterexample to claim C3 as stated: in the service-API-reachable store
`cexRepoC3` the book with identifier 1 is found and has
`available_quantity = -2 < 0 = total_quantity`, so the "already fully
stocked" guard does not fire, yet `ReturnBook` returns false and changes
nothing (the delegated `ChangeQuantity(+1)` refuses `-1`), where the claim
promises an increment and true. -/
theorem claim_C3_counterexample :
    (cexRepoC3.find_by_id 1).map Book.available_quantity = some (-2) ∧
    (cexRepoC3.find_by_id 1).map Book.total_quantity = some 0 ∧
    return_book cexRepoC3 1 5 = (false, cexRepoC3) := by
  decide

/-- Claim C3 (amended): `ReturnBook(id)` returns false when no stored book has
the identifier, returns false leaving state unchanged when the found book has
`available_quantity ≥ total_quantity`, and also returns false leaving state
unchanged when `available_quantity + 1 < 0` (the delegated `ChangeQuantity(+1)`
refuses); in the remaining case it increments the found book's
`available_quantity` by 1 and returns true. -/
theorem claim_C3_return (repo : BookRepository) (book_id : Int) (now : Nat) :
    (repo.find_by_id book_id = none → return_book repo book_id now = (false, repo)) ∧
    (∀ b, repo.find_by_id book_id = some b →
      b.total_quantity ≤ b.available_quantity →
      return_book repo book_id now = (false, repo)) ∧
    (∀ b, repo.find_by_id book_id = some b →
      b.available_quantity < b.total_quantity → 0 ≤ b.available_quantity + 1 →
      (return_book repo book_id now).1 = true ∧
      (return_book repo book_id now).2.find_by_id book_id =
        some { b with available_quantity := b.available_quantity + 1,
                      update_time := now }) ∧
    (∀ b, repo.find_by_id book_id = some b →
      b.available_quantity < b.total_quantity → b.available_quantity + 1 < 0 →
      return_book repo book_id now = (false, repo)) := by
  refine ⟨fun h => ?_, fun b hfind hge => ?_, fun b hfind hlt hnn => ?_,
    fun b hfind hlt hneg => ?_⟩
  · simp only [return_book, h]
  · simp only [return_book, hfind]
    rw [if_pos hge]
  · have hcond : b.available_quantity + 1 ≥ 0 ∧
        b.available_quantity + 1 ≤ b.total_quantity := by omega
    have hupd : b.update_quantity 1 now =
        (true, { b with available_quantity := b.available_quantity + 1,
                        update_time := now }) := by
      unfold Book.update_quantity
      rw [if_pos hcond]
    simp only [return_book, hfind]
    rw [if_neg (not_le.mpr hlt), hupd]
    refine ⟨rfl, ?_⟩
    have hid0 : b.book_id = book_id :=
      findByIdList_eq_id (by simpa [BookRepository.find_by_id] using hfind)
    have hid : ({ b with available_quantity := b.available_quantity + 1,
                         update_time := now } : Book).book_id = book_id := hid0
    have := findByIdList_setFirstById
      (by simpa [BookRepository.find_by_id] using hfind) hid
    simpa [BookRepository.find_by_id] using this
  · have hcond : ¬(b.available_quantity + 1 ≥ 0 ∧
        b.available_quantity + 1 ≤ b.total_quantity) := by omega
    have hupd : b.update_quantity 1 now = (false, b) := by
      unfold Book.update_quantity
      rw [if_neg hcond]
    simp only [return_book, hfind]
    rw [if_neg (not_le.mpr hlt), hupd]
    have hself := setFirstById_self
      (by simpa [BookRepository.find_by_id] using hfind)
    simp [hself]

/-- Witness for C3 (amended): returning a copy to `demoRepo2` (3 of 5 copies
in stock) succeeds and leaves 4 copies with the new timestamp. -/
theorem claim_C3_witness :
    demoRepo2.find_by_id 1 = some demoBook2 ∧
    demoBook2.available_quantity < demoBook2.total_quantity ∧
    (0 : Int) ≤ demoBook2.available_quantity + 1 ∧
    (return_book demoRepo2 1 9).1 = true ∧
    (return_book demoRepo2 1 9).2.find_by_id 1 =
      some { demoBook2 with available_quantity := 4, update_time := 9 } :=
  ⟨by decide, by decide, by decide,
    ((claim_C3_return demoRepo2 1 9).2.2.1 demoBook2 (by decide) (by decide)
      (by decide)).1,
    (((claim_C3_return demoRepo2 1 9).2.2.1 demoBook2 (by decide) (by decide)
      (by decide)).2).trans (by decide)⟩

/-- A successful borrow in one equation: when the book is found, has a copy
available, and the decrement stays under `total_quantity`, `borrow_book`
returns true and writes back the decremented book. -/
theorem borrow_book_success {repo : BookRepository} {book_id : Int} {now : Nat}
    {b : Book} (hfind : repo.find_by_id book_id = some b)
    (h0 : 0 < b.available_quantity)
    (hub : b.available_quantity - 1 ≤ b.total_quantity) :
    borrow_book repo book_id now =
      (true, { repo with books := setFirstById repo.books book_id
                           { b with available_quantity := b.available_quantity - 1,
                                    update_time := now } }) := by
  have hcond : b.available_quantity + (-1) ≥ 0 ∧
      b.available_quantity + (-1) ≤ b.total_quantity := by omega
  have hupd : b.update_quantity (-1) now =
      (true, { b with available_quantity := b.available_quantity - 1,
                      update_time := now }) := by
    unfold Book.update_quantity
    rw [if_pos hcond]
    rw [sub_eq_add_neg]
  simp only [borrow_book, hfind]
  rw [if_neg (not_le.mpr h0), hupd]

/-- A successful return in one equation: when the book is found, is not fully
stocked, and the increment stays at or above 0, `return_book` returns true and
writes back the incremented book. -/
theorem return_book_success {repo : BookRepository} {book_id : Int} {now : Nat}
    {b : Book} (hfind : repo.find_by_id book_id = some b)
    (hlt : b.available_quantity < b.total_quantity)
    (hnn : 0 ≤ b.available_quantity + 1) :
    return_book repo book_id now =
      (true, { repo with books := setFirstById repo.books book_id
                           { b with available_quantity := b.available_quantity + 1,
                                    update_time := now } }) := by
  have hcond : b.available_quantity + 1 ≥ 0 ∧
      b.available_quantity + 1 ≤ b.total_quantity := by omega
  have hupd : b.update_quantity 1 now =
      (true, { b with available_quantity := b.available_quantity + 1,
                      update_time := now }) := by
    unfold Book.update_quantity
    rw [if_pos hcond]
  simp only [return_book, hfind]
  rw [if_neg (not_le.mpr hlt), hupd]

/-- Counterexample to claim C6 as stated: in `cexRepoC6` the book with
identifier 1 satisfies the invariant with `available_quantity = 0` and
`total_quantity = 1`; `BorrowBook` then `ReturnBook` ends with
`available_quantity = 1`, not the pre-borrow value 0 (the borrow failed but
the return still succeeded). -/
theorem claim_C6_counterexample :
    (cexRepoC6.find_by_id 1).map Book.available_quantity = some 0 ∧
    (cexRepoC6.find_by_id 1).map Book.total_quantity = some 1 ∧
    ((return_book (borrow_book cexRepoC6 1 2).2 1 3).2.find_by_id 1).map
        Book.available_quantity = some 1 := by
  decide

/-- Claim C6 (amended): for every stored book in a starting state with
`0 < available_quantity ≤ total_quantity` (so the borrow itself succeeds),
`BorrowBook(id)` followed by `ReturnBook(id)` on that book restores
`available_quantity` to its pre-borrow value. -/
theorem claim_C6_borrow_then_return (repo : BookRepository) (book_id : Int)
    (b : Book) (t1 t2 : Nat) (hfind : repo.find_by_id book_id = some b)
    (h0 : 0 < b.available_quantity)
    (h1 : b.available_quantity ≤ b.total_quantity) :
    (borrow_book repo book_id t1).1 = true ∧
    ((return_book (borrow_book repo book_id t1).2 book_id t2).2.find_by_id
        book_id).map Book.available_quantity = some b.available_quantity := by
  have hb := @borrow_book_success repo book_id t1 b hfind h0 (by omega)
  have hid0 : b.book_id = book_id :=
    findByIdList_eq_id (by simpa [BookRepository.find_by_id] using hfind)
  have hid1 : ({ b with available_quantity := b.available_quantity - 1,
                        update_time := t1 } : Book).book_id = book_id := hid0
  have hfind1 : (borrow_book repo book_id t1).2.find_by_id book_id =
      some { b with available_quantity := b.available_quantity - 1,
                    update_time := t1 } := by
    rw [hb]
    exact findByIdList_setFirstById
      (by simpa [BookRepository.find_by_id] using hfind) hid1
  have hlt1 : ({ b with available_quantity := b.available_quantity - 1,
                        update_time := t1 } : Book).available_quantity <
      ({ b with available_quantity := b.available_quantity - 1,
                update_time := t1 } : Book).total_quantity := by
    show b.available_quantity - 1 < b.total_quantity
    omega
  have hnn1 : (0 : Int) ≤ ({ b with available_quantity := b.available_quantity - 1,
                                    update_time := t1 } : Book).available_quantity + 1 := by
    show (0 : Int) ≤ b.available_quantity - 1 + 1
    omega
  have hr := @return_book_success (borrow_book repo book_id t1).2 book_id t2 _ hfind1 hlt1 hnn1
  refine ⟨by rw [hb], ?_⟩
  rw [hr]
  have hid2 : ({ b with available_quantity := b.available_quantity - 1 + 1,
                        update_time := t2 } : Book).book_id = book_id := hid0
  have hfind2 := findByIdList_setFirstById
    (by simpa [BookRepository.find_by_id] using hfind1) hid2
  have hfind2' : ({ (borrow_book repo book_id t1).2 with
      books := setFirstById (borrow_book repo book_id t1).2.books book_id
                 { b with available_quantity := b.available_quantity - 1 + 1,
                          update_time := t2 } } : BookRepository).find_by_id book_id =
      some { b with available_quantity := b.available_quantity - 1 + 1,
                    update_time := t2 } := hfind2
  rw [hfind2']
  simp only [Option.map_some']
  congr 1
  omega

/-- Witness for C6 (amended): borrowing from `demoRepo` (5 of 5 copies) and
returning brings `available_quantity` back to 5. -/
theorem claim_C6_witness :
    demoRepo.find_by_id 1 = some demoBook ∧
    (0 : Int) < demoBook.available_quantity ∧
    demoBook.available_quantity ≤ demoBook.total_quantity ∧
    ((return_book (borrow_book demoRepo 1 2).2 1 3).2.find_by_id 1).map
        Book.available_quantity = some demoBook.available_quantity :=
  ⟨by decide, by decide, by decide,
    (claim_C6_borrow_then_return demoRepo 1 demoBook 2 3 (by decide) (by decide)
      (by decide)).2⟩

/-- Claim C10: for a stored book satisfying the quantity invariant
`0 ≤ available_quantity ≤ total_quantity`, the delegated `update_quantity`
call can never fail once the service guard passes: `BorrowBook` returns true
exactly when the book is found with `available_quantity > 0`, and
`ReturnBook` returns true exactly when the book is found with
`available_quantity < total_quantity`; when the book is absent both return
false. -/
theorem claim_C10_guards (repo : BookRepository) (book_id : Int) (now : Nat) :
    (repo.find_by_id book_id = none →
      (borrow_book repo book_id now).1 = false ∧
      (return_book repo book_id now).1 = false) ∧
    (∀ b, repo.find_by_id book_id = some b →
      0 ≤ b.available_quantity → b.available_quantity ≤ b.total_quantity →
      ((borrow_book repo book_id now).1 = true ↔ 0 < b.available_quantity) ∧
      ((return_book repo book_id now).1 = true ↔
        b.available_quantity < b.total_quantity)) := by
  refine ⟨fun h => ?_, fun b hfind hlo hhi => ⟨?_, ?_⟩⟩
  · constructor
    · simp only [borrow_book, h]
    · simp only [return_book, h]
  · by_cases hav : 0 < b.available_quantity
    · have hb := @borrow_book_success repo book_id now b hfind hav (by omega)
      rw [hb]
      simpa using hav
    · have hb : borrow_book repo book_id now = (false, repo) := by
        simp only [borrow_book, hfind]
        rw [if_pos (by omega)]
      rw [hb]
      simpa using hav
  · by_cases hlt : b.available_quantity < b.total_quantity
    · have hr := @return_book_success repo book_id now b hfind hlt (by omega)
      rw [hr]
      simpa using hlt
    · have hr : return_book repo book_id now = (false, repo) := by
        simp only [return_book, hfind]
        rw [if_pos (by omega)]
      rw [hr]
      simpa using hlt

/-- Witness for C10: in `demoRepo2` (3 of 5 copies) both guards pass, so both
operations report success, and the equivalences evaluate accordingly. -/
theorem claim_C10_witness :
    demoRepo2.find_by_id 1 = some demoBook2 ∧
    (0 : Int) ≤ demoBook2.available_quantity ∧
    demoBook2.available_quantity ≤ demoBook2.total_quantity ∧
    ((borrow_book demoRepo2 1 4).1 = true ↔ 0 < demoBook2.available_quantity) ∧
    ((return_book demoRepo2 1 4).1 = true ↔
      demoBook2.available_quantity < demoBook2.total_quantity) :=
  ⟨by decide, by decide, by decide,
    ((claim_C10_guards demoRepo2 1 4).2 demoBook2 (by decide) (by decide)
      (by decide)).1,
    ((claim_C10_guards demoRepo2 1 4).2 demoBook2 (by decide) (by decide)
      (by decide)).2⟩

/-- Claim C4: `AddBook` fails with the duplicate-ISBN error exactly when a
stored book already has the same ISBN (the scan condition involves only the
ISBN, so no other field matters); otherwise it constructs a book with
identifier unset (0), saves it, and returns the persisted entity carrying the
newly assigned identifier `next_id`, appended to the store. -/
theorem claim_C4_add_book (repo : BookRepository)
    (isbn title author publisher : String) (publish_date : Nat)
    (category_id : Int) (price : Int) (total_quantity : Int) (now : Nat) :
    (repo.find_by_isbn isbn = none ↔ ∀ b ∈ repo.books, b.isbn ≠ isbn) ∧
    ((∃ b0, repo.find_by_isbn isbn = some b0) →
      add_book repo isbn title author publisher publish_date category_id price
        total_quantity now = .error ("ISBN " ++ isbn ++ " 已存在")) ∧
    (repo.find_by_isbn isbn = none →
      add_book repo isbn title author publisher publish_date category_id price
        total_quantity now =
      .ok ({ Book.make 0 isbn title author publisher publish_date category_id
               price total_quantity now with book_id := repo.next_id },
           { books := repo.books ++
               [{ Book.make 0 isbn title author publisher publish_date
                    category_id price total_quantity now with
                    book_id := repo.next_id }],
             next_id := repo.next_id + 1 })) := by
  refine ⟨findByIsbnList_eq_none_iff, ?_, ?_⟩
  · rintro ⟨b0, h⟩
    simp only [add_book, h]
  · intro h
    simp only [add_book, h]
    rfl

/-- Witness for C4: adding an ISBN already present in `demoRepo` raises the
duplicate error; adding a fresh ISBN succeeds and receives identifier 2. -/
theorem claim_C4_witness :
    (∃ b0, demoRepo.find_by_isbn "isbn-1" = some b0) ∧
    add_book demoRepo "isbn-1" "T" "A" "P" 0 1 10 2 9 =
      .error "ISBN isbn-1 已存在" ∧
    demoRepo.find_by_isbn "zz" = none ∧
    add_book demoRepo "zz" "T" "A" "P" 0 1 10 2 9 =
      .ok ({ Book.make 0 "zz" "T" "A" "P" 0 1 10 2 9 with book_id := 2 },
           { books := demoRepo.books ++
               [{ Book.make 0 "zz" "T" "A" "P" 0 1 10 2 9 with book_id := 2 }],
             next_id := 3 }) :=
  ⟨⟨demoBook, by decide⟩,
   ((claim_C4_add_book demoRepo "isbn-1" "T" "A" "P" 0 1 10 2 9).2.1
      ⟨demoBook, by decide⟩).trans (by rfl),
   by decide,
   ((claim_C4_add_book demoRepo "zz" "T" "A" "P" 0 1 10 2 9).2.2
      (by decide)).trans (by rfl)⟩

/-- Claim C9: when the store contains a book with the given identifier,
`UpdateBook` applies exactly the supplied recognized field/value pairs in
order onto that entity and returns it; an unrecognized name is silently
ignored and (being the only pair) leaves the store completely unchanged;
`UpdateBook(id, price := v)` yields the old book with only `price` replaced
(every other field, `update_time` included, is the structure-update of
`price` alone); and every stored book with a different identifier keeps its
position and value. -/
theorem claim_C9_update_book (repo : BookRepository) (book_id : Int) (b : Book)
    (hfind : repo.find_by_id book_id = some b) :
    (∀ kwargs : List FieldAssign,
      (update_book repo book_id kwargs).1 = some (kwargs.foldl setField b)) ∧
    (∀ v : Int, (update_book repo book_id [FieldAssign.price v]).1 =
      some { b with price := v }) ∧
    (∀ v : Int,
      (update_book repo book_id [FieldAssign.price v]).2.find_by_id book_id =
        some { b with price := v }) ∧
    (∀ s, update_book repo book_id [FieldAssign.unknown s] = (some b, repo)) ∧
    (∀ (kwargs : List FieldAssign) (j : Nat) (bj : Book),
      repo.books.get? j = some bj → bj.book_id ≠ book_id →
      (update_book repo book_id kwargs).2.books.get? j = some bj) := by
  have hfind' : findByIdList repo.books book_id = some b := by
    simpa [BookRepository.find_by_id] using hfind
  have hid0 : b.book_id = book_id := findByIdList_eq_id hfind'
  refine ⟨fun kwargs => ?_, fun v => ?_, fun v => ?_, fun s => ?_,
    fun kwargs j bj hj hne => ?_⟩
  · simp only [update_book, hfind]
  · simp only [update_book, hfind]
    rfl
  · simp only [update_book, hfind]
    have hid : ({ b with price := v } : Book).book_id = book_id := hid0
    exact findByIdList_setFirstById hfind' hid
  · simp only [update_book, hfind]
    have hfold : List.foldl setField b [FieldAssign.unknown s] = b := rfl
    rw [hfold, setFirstById_self hfind']
  · simp only [update_book, hfind]
    exact getq_setFirstById_ne hj hne

/-- Witness for C9: updating the price of `demoRepo`'s book to 99 changes only
`price`; an unrecognized field name leaves book and store untouched. -/
theorem claim_C9_witness :
    demoRepo.find_by_id 1 = some demoBook ∧
    (update_book demoRepo 1 [FieldAssign.price 99]).1 =
      some { demoBook with price := 99 } ∧
    (update_book demoRepo 1 [FieldAssign.price 99]).2.find_by_id 1 =
      some { demoBook with price := 99 } ∧
    update_book demoRepo 1 [FieldAssign.unknown "oops"] =
      (some demoBook, demoRepo) :=
  ⟨by decide,
   (claim_C9_update_book demoRepo 1 demoBook (by decide)).2.1 99,
   (claim_C9_update_book demoRepo 1 demoBook (by decide)).2.2.1 99,
   (claim_C9_update_book demoRepo 1 demoBook (by decide)).2.2.2.1 "oops"⟩

/-- The loop-body `match` flag coincides pointwise with the spec's reading of
the three filters (omitted / empty-string / zero impose no constraint). -/
theorem paramsMatch_eq_specParamsFilter (title author : Option String)
    (category_id : Option Int) (b : Book) :
    paramsMatch title author category_id b =
      specParamsFilter title author category_id b := by
  have h1 : ∀ (t : Option String) (f : String),
      (!(pyTruthyStr t && !strOccursCI (t.getD "") f)) = specStrFilter t f := by
    intro t f
    cases t with
    | none => rfl
    | some s =>
      by_cases hs : s = ""
      · subst hs
        rfl
      · simp [pyTruthyStr, specStrFilter, hs]
  have h2 : ∀ (c : Option Int) (x : Int),
      (!(pyTruthyInt c && !(x == c.getD 0))) = specCidFilter c x := by
    intro c x
    cases c with
    | none => rfl
    | some i =>
      by_cases hi : i = 0
      · subst hi
        simp [pyTruthyInt, specCidFilter]
      · simp [pyTruthyInt, specCidFilter, hi]
  rw [paramsMatch, specParamsFilter, h1, h1, h2]

/-- The accumulation loop of `find_by_params` is `List.filter` of its `match`
flag, so insertion order is preserved. -/
theorem findByParamsList_eq_filter (title author : Option String)
    (category_id : Option Int) (books : List Book) :
    findByParamsList books title author category_id =
      books.filter (paramsMatch title author category_id) := by
  induction books with
  | nil => rfl
  | cons a rest ih =>
    by_cases hm : paramsMatch title author category_id a
    · simp [findByParamsList, hm, ih, List.filter_cons]
    · simp [findByParamsList, hm, ih, List.filter_cons]

/-- Claim C7: `SearchBooks`/`FindByParams` returns exactly the stored books
satisfying every supplied filter — title and author as case-insensitive
substring matches, `category_id` as exact equality — in store insertion
order, with an omitted filter, an empty-string title or author, and
`category_id = 0` imposing no constraint. -/
theorem claim_C7_search_books (repo : BookRepository)
    (title author : Option String) (category_id : Option Int) :
    search_books repo title author category_id =
      repo.books.filter (specParamsFilter title author category_id) := by
  show findByParamsList repo.books title author category_id = _
  rw [findByParamsList_eq_filter]
  exact List.filter_congr
    (fun b _ => paramsMatch_eq_specParamsFilter title author category_id b)

/-- Each service-API call either assigns no identifier and preserves
`_next_id`, or assigns exactly the current `_next_id` and bumps the counter
by one. -/
theorem applyOp_assign (repo : BookRepository) (op : Op) :
    (assignsId repo op = [] ∧ (applyOp repo op).next_id = repo.next_id) ∨
    (assignsId repo op = [repo.next_id] ∧
      (applyOp repo op).next_id = repo.next_id + 1) := by
  cases op with
  | add isbn title author publisher pd cid pr tq now =>
    cases h : repo.find_by_isbn isbn with
    | some b =>
      left
      constructor
      · simp [assignsId, h]
      · simp [applyOp, add_book, h]
    | none =>
      right
      constructor
      · simp [assignsId, h]
      · simp [applyOp, add_book, h, BookRepository.save, Book.make]
  | update book_id kwargs =>
    left
    refine ⟨rfl, ?_⟩
    cases h : repo.find_by_id book_id with
    | none => simp [applyOp, update_book, h]
    | some b => simp [applyOp, update_book, h]
  | delete book_id =>
    left
    exact ⟨rfl, rfl⟩
  | borrow book_id now =>
    left
    refine ⟨rfl, ?_⟩
    cases h : repo.find_by_id book_id with
    | none => simp [applyOp, borrow_book, h]
    | some b =>
      simp only [applyOp, borrow_book, h]
      split
      · rfl
      · rfl
  | ret book_id now =>
    left
    refine ⟨rfl, ?_⟩
    cases h : repo.find_by_id book_id with
    | none => simp [applyOp, return_book, h]
    | some b =>
      simp only [applyOp, return_book, h]
      split
      · rfl
      · rfl

/-- The `_next_id` counter never decreases over a run of service-API calls. -/
theorem next_id_le_runOps (ops : List Op) :
    ∀ repo : BookRepository, repo.next_id ≤ (runOps repo ops).next_id := by
  induction ops with
  | nil =>
    intro repo
    exact le_refl _
  | cons op ops ih =>
    intro repo
    have h2 := ih (applyOp repo op)
    have hstep : runOps repo (op :: ops) = runOps (applyOp repo op) ops := rfl
    rw [hstep]
    rcases applyOp_assign repo op with ⟨_, hn⟩ | ⟨_, hn⟩ <;> omega

/-- The identifiers assigned over a run are exactly the integer interval from
the starting `_next_id` (inclusive) to the final `_next_id` (exclusive), in
order. -/
theorem traceAssigned_eq_rangeFrom (ops : List Op) :
    ∀ repo : BookRepository,
      traceAssigned repo ops =
        rangeFrom repo.next_id
          ((runOps repo ops).next_id - repo.next_id).toNat := by
  induction ops with
  | nil =>
    intro repo
    rw [show (runOps repo []).next_id = repo.next_id from rfl, Int.sub_self]
    rfl
  | cons op ops ih =>
    intro repo
    have hrun : runOps repo (op :: ops) = runOps (applyOp repo op) ops := rfl
    have hmono := next_id_le_runOps ops (applyOp repo op)
    have hstep : traceAssigned repo (op :: ops) =
        assignsId repo op ++ traceAssigned (applyOp repo op) ops := rfl
    rcases applyOp_assign repo op with ⟨ha, hn⟩ | ⟨ha, hn⟩
    · rw [hstep, ha, ih (applyOp repo op), hn, hrun]
      rfl
    · rw [hstep, ha, ih (applyOp repo op), hn, hrun]
      rw [hn] at hmono
      have hk : ((runOps (applyOp repo op) ops).next_id - repo.next_id).toNat =
          ((runOps (applyOp repo op) ops).next_id - (repo.next_id + 1)).toNat
            + 1 := by
        omega
      rw [hk]
      rfl

/-- Every member of `rangeFrom a n` is at least `a`. -/
theorem mem_rangeFrom {x : Int} :
    ∀ {n : Nat} {a : Int}, x ∈ rangeFrom a n → a ≤ x := by
  intro n
  induction n with
  | zero =>
    intro a h
    simp [rangeFrom] at h
  | succ n ih =>
    intro a h
    rw [rangeFrom] at h
    rcases List.mem_cons.mp h with rfl | h
    · exact le_refl _
    · have := ih h
      omega

/-- Lists produced by `rangeFrom` are strictly increasing. -/
theorem rangeFrom_pairwise : ∀ (n : Nat) (a : Int),
    (rangeFrom a n).Pairwise (· < ·) := by
  intro n
  induction n with
  | zero =>
    intro a
    simp [rangeFrom]
  | succ n ih =>
    intro a
    rw [rangeFrom]
    refine List.Pairwise.cons (fun x hx => ?_) (ih (a + 1))
    have := mem_rangeFrom hx
    omega

/-- Claim C8: over every sequence of service-API calls from a fresh store,
the identifiers assigned by `Save` form a strictly increasing, duplicate-free
sequence whose first element is 1 — identifiers are never reassigned, even
after deletion. -/
theorem claim_C8_identifier_assignment (ops : List Op) :
    (traceAssigned initRepo ops).Pairwise (· < ·) ∧
    (traceAssigned initRepo ops).Nodup ∧
    (traceAssigned initRepo ops ≠ [] →
      (traceAssigned initRepo ops).head? = some 1) := by
  have htr := traceAssigned_eq_rangeFrom ops initRepo
  have hpw : (traceAssigned initRepo ops).Pairwise (· < ·) := by
    rw [htr]
    exact rangeFrom_pairwise _ _
  refine ⟨hpw, hpw.imp (fun h => ne_of_lt h), fun hne => ?_⟩
  rw [htr] at hne ⊢
  cases hn : ((runOps initRepo ops).next_id - initRepo.next_id).toNat with
  | zero =>
    rw [hn] at hne
    exact absurd rfl hne
  | succ k =>
    rfl

/-- Witness for C8: adding a book, attempting a duplicate ISBN, deleting book
1 and adding a fresh ISBN assigns exactly the identifiers 1 then 2 — the
freed identifier 1 is not reused. -/
theorem claim_C8_witness :
    traceAssigned initRepo
        [Op.add "a" "t" "u" "p" 0 1 1 1 0, Op.add "a" "t" "u" "p" 0 1 1 1 0,
         Op.delete 1, Op.add "b" "t" "u" "p" 0 1 1 1 0] ≠ [] ∧
    (traceAssigned initRepo
        [Op.add "a" "t" "u" "p" 0 1 1 1 0, Op.add "a" "t" "u" "p" 0 1 1 1 0,
         Op.delete 1, Op.add "b" "t" "u" "p" 0 1 1 1 0]).head? = some 1 ∧
    traceAssigned initRepo
        [Op.add "a" "t" "u" "p" 0 1 1 1 0, Op.add "a" "t" "u" "p" 0 1 1 1 0,
         Op.delete 1, Op.add "b" "t" "u" "p" 0 1 1 1 0] = [1, 2] :=
  ⟨by decide,
   (claim_C8_identifier_assignment
      [Op.add "a" "t" "u" "p" 0 1 1 1 0, Op.add "a" "t" "u" "p" 0 1 1 1 0,
       Op.delete 1, Op.add "b" "t" "u" "p" 0 1 1 1 0]).2.2 (by decide),
   by decide⟩
